import Mathlib

/-!
Verification of the heightmap-to-landscape pipeline in `generation.cpp`
(`GenerateLandscape`).  The C++ function is shallowly embedded below:
machine integers become `Nat`, the 16-bit height samples become `Nat`
values, floats become exact rationals `ℚ`, the `TArray<uint16>` height
buffer becomes a `List Nat`, and the imperative copy loops become folds
over `List.range`.  Host-side effects (file read, PNG decode, raw data
extraction, actor spawning) are modelled by a `PipelineInput` record
saying which of those external operations would succeed, and the
function returns both the list of pipeline stages it executed and its
result.
-/

namespace Landscape

/-- A decoded source image: width, height and the row-major decoded
16-bit grayscale samples (what `ImageWrapper->GetWidth/GetHeight/GetRaw`
deliver in `generation.cpp` lines 30-31 and 43). -/
structure SourceImageMeta where
  width : Nat
  height : Nat
  samples : List Nat
deriving DecidableEq

/-- The resized height grid handed to the landscape import: the adjusted
dimensions `SizeX`/`SizeY` (lines 34-35) and the `HeightData` buffer
(lines 41-57). -/
structure HeightGrid where
  sizeX : Nat
  sizeY : Nat
  data : List Nat
deriving DecidableEq

/-- Fuel-driven helper for `FMath::RoundUpToPowerOfTwo`: repeatedly halve
(rounding up) until the argument reaches 1, doubling the result on the way
back.  Structural recursion on the fuel keeps it kernel-computable. -/
def roundUpAux : Nat → Nat → Nat
  | 0, _ => 1
  | fuel + 1, n => if n ≤ 1 then 1 else 2 * roundUpAux fuel ((n + 1) / 2)

/-- `FMath::RoundUpToPowerOfTwo` (line 34): the least power of two that
is `≥ n` (and `1` for `n = 0`, as in the engine implementation). -/
def roundUpToPowerOfTwo (n : Nat) : Nat := roundUpAux n n

/-- The inner copy loop of lines 53-56 run for `x = 0, …, n-1`:
`HeightData[y*t + x] = SrcData[y*w + x]`, where `t` is `SizeX` and `w` is
`OriginalSizeX`.  Out-of-range writes (`List.set` past the end) leave the
buffer unchanged, so the grid cells only record in-bounds writes. -/
def copyRow (s : List Nat) (w t y : Nat) (n : Nat) (buf : List Nat) : List Nat :=
  (List.range n).foldl (fun b x => b.set (y * t + x) (s.getD (y * w + x) 0)) buf

/-- The outer copy loop of lines 51-57 run for `y = 0, …, m-1`. -/
def copyAll (s : List Nat) (w t : Nat) (m : Nat) (buf : List Nat) : List Nat :=
  (List.range m).foldl (fun b y => copyRow s w t y w b) buf

/-- The resize step of `GenerateLandscape` (lines 34-57): `SizeX` is the
width rounded up to a power of two, `SizeY` is forced equal to `SizeX`,
the buffer holds `SizeX * SizeY` zeroed samples (`SetNum`/`Memzero`),
then the source rectangle is copied in. -/
def resize (meta : SourceImageMeta) : HeightGrid :=
  let t := roundUpToPowerOfTwo meta.width
  { sizeX := t
    sizeY := t
    data := copyAll meta.samples meta.width t meta.height (List.replicate (t * t) 0) }

/-- The write indices of the copy loop (lines 51-57) stay inside the
allocated `SizeX * SizeY` buffer.  The C++ loop has no bound check: this
predicate records where each iteration writes. -/
def resizeWritesInBounds (meta : SourceImageMeta) : Prop :=
  ∀ y < meta.height, ∀ x < meta.width,
    y * roundUpToPowerOfTwo meta.width + x <
      roundUpToPowerOfTwo meta.width * roundUpToPowerOfTwo meta.width

instance (meta : SourceImageMeta) : Decidable (resizeWritesInBounds meta) := by
  unfold resizeWritesInBounds; infer_instance

/-- Component/subsection tiling parameters (lines 66-68). -/
structure TerrainParams where
  componentQuads : Nat
  subsectionQuads : Nat
  numSubsections : Nat
deriving DecidableEq

/-- Lines 66-68: `ComponentQuads = FMath::Max(63, SizeX - 1)`,
`SubsectionQuads = ComponentQuads`, `NumSubsections = 1`. -/
def deriveParams (gridSize : Nat) : TerrainParams :=
  let componentQuads := max 63 (gridSize - 1)
  { componentQuads := componentQuads
    subsectionQuads := componentQuads
    numSubsections := 1 }

/-- Horizontal and vertical world scales (lines 71-80), floats modelled
as exact rationals. -/
structure ScaleFactors where
  horizontal : ℚ
  vertical : ℚ
deriving DecidableEq

/-- `FMath::RoundToInt(FMath::Sqrt(numBlocks))` (line 72): the nearest
integer to `√n`, i.e. `Nat.sqrt n` bumped by one when the fractional part
reaches one half. -/
def roundSqrt (n : Nat) : Nat :=
  let s := Nat.sqrt n
  if n ≤ s * s + s then s else s + 1

/-- Line 71: `BlockSizeInUnrealUnits = 50000.0f` (500 meters). -/
def blockSizeInUnrealUnits : ℚ := 50000

/-- Line 79: `DesiredScale = 25.0f`. -/
def desiredScale : ℚ := 25

/-- Lines 71-80: `GridSize = RoundToInt(Sqrt(NumBlocks))`,
`TotalSize = blockWorldSize * GridSize`,
`HorizontalScaleFactor = TotalSize / SizeX`,
`VerticalScaleFactor = DesiredScale`.  `gridSize` here is `SizeX`. -/
def computeScales (gridSize numBlocks : Nat) (blockWorldSize desiredVerticalScale : ℚ) :
    ScaleFactors :=
  let gridSideBlocks : Nat := roundSqrt numBlocks
  let totalWorldSize : ℚ := blockWorldSize * gridSideBlocks
  { horizontal := totalWorldSize / (gridSize : ℚ)
    vertical := desiredVerticalScale }

/-- Error taxonomy of the pipeline (spec section 7); each value tags the
early `return` the C++ function takes on that failure. -/
inductive PipelineError where
  | hostUnavailable
  | fileReadError
  | formatError
  | pixelFormatError
deriving DecidableEq

/-- The externally visible pipeline stages executed by
`GenerateLandscape`, in source order. -/
inductive Stage where
  | fileRead
  | decode
  | getRaw
  | doResize
  | deriveTerrainParams
  | computeScaleFactors
  | build
deriving DecidableEq

/-- The outcome of each external operation the function performs:
whether a world is supplied (line 6), the bytes `LoadFileToArray`
returns (line 14, `none` = unreadable), the image the wrapper decodes
(lines 20-31, `none` = not a decodable container), and whether `GetRaw`
succeeds (line 43). -/
structure PipelineInput where
  hostAvailable : Bool
  fileBytes : Option (List Nat)
  decodedImage : Option SourceImageMeta
  rawDataOk : Bool
deriving DecidableEq

/-- Everything `GenerateLandscape` computes and hands to the landscape
actor (lines 108-126). -/
structure LandscapeConfig where
  heightData : HeightGrid
  componentQuads : Nat
  subsectionQuads : Nat
  numSubsections : Nat
  horizontalScale : ℚ
  verticalScale : ℚ
deriving DecidableEq

/-- `GenerateLandscape` (lines 4-131): guard on the world, load the
file, decode it, extract raw 16-bit data, resize, derive parameters,
compute scales, and build.  Returns the stages executed together with
the error taken or the configuration produced. -/
def generateLandscape (inp : PipelineInput) (numBlocks : Nat) :
    List Stage × Except PipelineError LandscapeConfig :=
  if inp.hostAvailable = false then
    ([], Except.error PipelineError.hostUnavailable)
  else
    match inp.fileBytes with
    | none => ([Stage.fileRead], Except.error PipelineError.fileReadError)
    | some _ =>
      match inp.decodedImage with
      | none => ([Stage.fileRead, Stage.decode], Except.error PipelineError.formatError)
      | some meta =>
        if inp.rawDataOk = false then
          ([Stage.fileRead, Stage.decode, Stage.getRaw],
            Except.error PipelineError.pixelFormatError)
        else
          let grid := resize meta
          let params := deriveParams grid.sizeX
          let scales := computeScales grid.sizeX numBlocks blockSizeInUnrealUnits desiredScale
          ([Stage.fileRead, Stage.decode, Stage.getRaw, Stage.doResize,
              Stage.deriveTerrainParams, Stage.computeScaleFactors, Stage.build],
            Except.ok
              { heightData := grid
                componentQuads := params.componentQuads
                subsectionQuads := params.subsectionQuads
                numSubsections := params.numSubsections
                horizontalScale := scales.horizontal
                verticalScale := scales.vertical })

/-- A 300x200-style small example for the padding claim: 3 wide, 2 tall. -/
def padMeta : SourceImageMeta := ⟨3, 2, [10, 11, 12, 20, 21, 22]⟩

/-- A power-of-two square example: 2x2. -/
def sqMeta : SourceImageMeta := ⟨2, 2, [1, 2, 3, 4]⟩

/-- An image taller than `nextPowerOfTwo(width)`: 1 wide, 2 tall. -/
def tallMeta : SourceImageMeta := ⟨1, 2, [3, 4]⟩

/-- Two images sharing a width but with different heights. -/
def wideMetaA : SourceImageMeta := ⟨3, 5, []⟩

/-- Second image with the same width as `wideMetaA`. -/
def wideMetaB : SourceImageMeta := ⟨3, 9, [1]⟩

/-- A pipeline input whose external operations all succeed. -/
def okInput : PipelineInput :=
  { hostAvailable := true
    fileBytes := some []
    decodedImage := some ⟨1, 1, [7]⟩
    rawDataOk := true }

/-- A pipeline input with no host world supplied. -/
def noHostInput : PipelineInput :=
  { hostAvailable := false
    fileBytes := none
    decodedImage := none
    rawDataOk := false }

/-- A pipeline input with a host world but an unreadable file. -/
def badFileInput : PipelineInput :=
  { hostAvailable := true
    fileBytes := none
    decodedImage := none
    rawDataOk := false }

/-! ### Properties of `roundUpToPowerOfTwo` -/

theorem roundUpAux_spec :
    ∀ fuel n, n ≤ fuel → 0 < n →
      (∃ k, roundUpAux fuel n = 2 ^ k) ∧
        n ≤ roundUpAux fuel n ∧ roundUpAux fuel n < 2 * n := by
  intro fuel
  induction fuel with
  | zero => intro n hn h0; omega
  | succ fuel ih =>
    intro n hn h0
    by_cases h1 : n ≤ 1
    · have hn1 : n = 1 := by omega
      subst hn1
      simp only [roundUpAux, if_pos (by omega : (1:Nat) ≤ 1)]
      exact ⟨⟨0, rfl⟩, le_refl 1, by omega⟩
    · have h2 : 2 ≤ n := by omega
      have hm : (n + 1) / 2 ≤ fuel := by omega
      have hm0 : 0 < (n + 1) / 2 := by omega
      obtain ⟨⟨k, hk⟩, hle, hlt⟩ := ih ((n + 1) / 2) hm hm0
      have hstep : roundUpAux (fuel + 1) n = 2 * roundUpAux fuel ((n + 1) / 2) := by
        simp only [roundUpAux, if_neg h1]
      rw [hstep]
      refine ⟨⟨k + 1, by rw [pow_succ]; omega⟩, by omega, ?_⟩
      have hrn : roundUpAux fuel ((n + 1) / 2) < n := by
        rcases k with _ | k
        · simp only [pow_zero] at hk
          omega
        · have he : roundUpAux fuel ((n + 1) / 2) = 2 * 2 ^ k := by
            rw [hk, pow_succ]; omega
          omega
      omega

theorem roundUpToPowerOfTwo_spec (n : Nat) (h : 0 < n) :
    (∃ k, roundUpToPowerOfTwo n = 2 ^ k) ∧
      n ≤ roundUpToPowerOfTwo n ∧ roundUpToPowerOfTwo n < 2 * n :=
  roundUpAux_spec n n (le_refl n) h

theorem le_roundUpToPowerOfTwo (n : Nat) : n ≤ roundUpToPowerOfTwo n := by
  rcases Nat.eq_zero_or_pos n with h | h
  · subst h; exact Nat.zero_le _
  · exact (roundUpToPowerOfTwo_spec n h).2.1

theorem roundUpToPowerOfTwo_pos (n : Nat) : 0 < roundUpToPowerOfTwo n := by
  rcases Nat.eq_zero_or_pos n with h | h
  · subst h; exact Nat.one_pos
  · exact lt_of_lt_of_le h (le_roundUpToPowerOfTwo n)

theorem roundUpToPowerOfTwo_pow (k : Nat) : roundUpToPowerOfTwo (2 ^ k) = 2 ^ k := by
  obtain ⟨⟨j, hj⟩, hle, hlt⟩ := roundUpToPowerOfTwo_spec (2 ^ k) (Nat.pos_pow_of_pos k (by omega))
  rw [hj] at hle hlt ⊢
  have hkj : k ≤ j := by
    by_contra hc
    have : 2 ^ j < 2 ^ k := Nat.pow_lt_pow_right (by omega) (by omega)
    omega
  have hjk : j ≤ k := by
    by_contra hc
    have : 2 ^ (k + 1) ≤ 2 ^ j := Nat.pow_le_pow_right (by omega) (by omega)
    rw [pow_succ] at this
    omega
  have : j = k := le_antisymm hjk hkj
  rw [this]

/-- C4: for every positive integer w, nextPowerOfTwo(w) is at least w, is a
power of two, and is strictly below 2*w. -/
theorem roundUpToPowerOfTwo_tight (w : Nat) (hw : 0 < w) :
    w ≤ roundUpToPowerOfTwo w ∧ (∃ k, roundUpToPowerOfTwo w = 2 ^ k) ∧
      roundUpToPowerOfTwo w < 2 * w := by
  obtain ⟨hpow, hle, hlt⟩ := roundUpToPowerOfTwo_spec w hw
  exact ⟨hle, hpow, hlt⟩

theorem roundUpToPowerOfTwo_tight_witness :
    0 < 5 ∧
      (5 ≤ roundUpToPowerOfTwo 5 ∧ (∃ k, roundUpToPowerOfTwo 5 = 2 ^ k) ∧
        roundUpToPowerOfTwo 5 < 2 * 5) :=
  ⟨by decide, roundUpToPowerOfTwo_tight 5 (by decide)⟩

/-! ### Properties of the copy loops -/

theorem getD_set_ne (l : List Nat) (i j a : Nat) (hij : i ≠ j) :
    (l.set i a).getD j 0 = l.getD j 0 := by
  rw [List.getD_eq_getElem?_getD, List.getD_eq_getElem?_getD, List.getElem?_set_ne hij]

theorem getD_set_self (l : List Nat) (i a : Nat) (hi : i < l.length) :
    (l.set i a).getD i 0 = a := by
  rw [List.getD_eq_getElem?_getD, List.getElem?_set_self hi]
  rfl

theorem getD_replicate_zero (n j : Nat) : (List.replicate n (0 : Nat)).getD j 0 = 0 := by
  rw [List.getD_eq_getElem?_getD, List.getElem?_replicate]
  split <;> rfl

theorem copyRow_succ (s : List Nat) (w t y n : Nat) (buf : List Nat) :
    copyRow s w t y (n + 1) buf =
      (copyRow s w t y n buf).set (y * t + n) (s.getD (y * w + n) 0) := by
  unfold copyRow
  rw [List.range_succ, List.foldl_append, List.foldl_cons, List.foldl_nil]

theorem copyRow_length (s : List Nat) (w t y n : Nat) (buf : List Nat) :
    (copyRow s w t y n buf).length = buf.length := by
  induction n with
  | zero => rfl
  | succ n ih => rw [copyRow_succ, List.length_set, ih]

theorem copyRow_getD_miss (s : List Nat) (w t y n j : Nat) (buf : List Nat)
    (hj : ∀ x < n, y * t + x ≠ j) :
    (copyRow s w t y n buf).getD j 0 = buf.getD j 0 := by
  induction n with
  | zero => rfl
  | succ n ih =>
    rw [copyRow_succ, getD_set_ne _ _ _ _ (hj n (by omega)),
      ih (fun x hx => hj x (by omega))]

theorem copyRow_getD_hit (s : List Nat) (w t y n x : Nat) (buf : List Nat)
    (hx : x < n) (hlen : y * t + x < buf.length) :
    (copyRow s w t y n buf).getD (y * t + x) 0 = s.getD (y * w + x) 0 := by
  induction n with
  | zero => omega
  | succ n ih =>
    rw [copyRow_succ]
    by_cases hxn : x = n
    · subst hxn
      exact getD_set_self _ _ _ (by rw [copyRow_length]; exact hlen)
    · rw [getD_set_ne _ _ _ _ (by omega)]
      exact ih (by omega)

theorem copyAll_succ (s : List Nat) (w t m : Nat) (buf : List Nat) :
    copyAll s w t (m + 1) buf = copyRow s w t m w (copyAll s w t m buf) := by
  unfold copyAll
  rw [List.range_succ, List.foldl_append, List.foldl_cons, List.foldl_nil]

theorem copyAll_length (s : List Nat) (w t m : Nat) (buf : List Nat) :
    (copyAll s w t m buf).length = buf.length := by
  induction m with
  | zero => rfl
  | succ m ih => rw [copyAll_succ, copyRow_length, ih]

theorem copyAll_getD_miss (s : List Nat) (w t m j : Nat) (buf : List Nat)
    (hj : ∀ y < m, ∀ x < w, y * t + x ≠ j) :
    (copyAll s w t m buf).getD j 0 = buf.getD j 0 := by
  induction m with
  | zero => rfl
  | succ m ih =>
    rw [copyAll_succ, copyRow_getD_miss _ _ _ _ _ _ _ (fun x hx => hj m (by omega) x hx),
      ih (fun y hy x hx => hj y (by omega) x hx)]

theorem copyAll_getD_hit (s : List Nat) (w t m y x : Nat) (buf : List Nat)
    (hwt : w ≤ t) (hy : y < m) (hx : x < w) (hlen : y * t + x < buf.length) :
    (copyAll s w t m buf).getD (y * t + x) 0 = s.getD (y * w + x) 0 := by
  induction m with
  | zero => omega
  | succ m ih =>
    rw [copyAll_succ]
    by_cases hym : y = m
    · subst hym
      exact copyRow_getD_hit _ _ _ _ _ _ _ hx (by rw [copyAll_length]; exact hlen)
    · have hrow : ∀ x' < w, m * t + x' ≠ y * t + x := by
        intro x' hx' heq
        have h1 : y * t + x < y * t + t :=
          Nat.add_lt_add_left (lt_of_lt_of_le hx hwt) _
        have h2 : y * t + t ≤ m * t := by
          have h3 : (y + 1) * t ≤ m * t := Nat.mul_le_mul_right t (by omega)
          rwa [add_one_mul] at h3
        exact Nat.ne_of_gt
          (lt_of_lt_of_le (lt_of_lt_of_le h1 h2) (Nat.le_add_right _ _)) heq
      rw [copyRow_getD_miss _ _ _ _ _ _ _ hrow]
      exact ih (by omega)

theorem resize_data (meta : SourceImageMeta) :
    (resize meta).data =
      copyAll meta.samples meta.width (roundUpToPowerOfTwo meta.width) meta.height
        (List.replicate (roundUpToPowerOfTwo meta.width * roundUpToPowerOfTwo meta.width) 0) :=
  rfl

theorem resize_data_length (meta : SourceImageMeta) :
    (resize meta).data.length =
      roundUpToPowerOfTwo meta.width * roundUpToPowerOfTwo meta.width := by
  rw [resize_data, copyAll_length, List.length_replicate]

/-- C2: the output grid side is nextPowerOfTwo(width) in both dimensions:
square, and the source height is never consulted when sizing. -/
theorem resize_target_square_width_only (meta₁ meta₂ : SourceImageMeta)
    (h : meta₁.width = meta₂.width) :
    (resize meta₁).sizeX = roundUpToPowerOfTwo meta₁.width ∧
      (resize meta₁).sizeY = (resize meta₁).sizeX ∧
      (resize meta₁).sizeX = (resize meta₂).sizeX ∧
      (resize meta₁).sizeY = (resize meta₂).sizeY := by
  refine ⟨rfl, rfl, ?_, ?_⟩ <;> · show roundUpToPowerOfTwo _ = roundUpToPowerOfTwo _; rw [h]

theorem resize_target_square_width_only_witness :
    wideMetaA.width = wideMetaB.width ∧
      ((resize wideMetaA).sizeX = roundUpToPowerOfTwo wideMetaA.width ∧
        (resize wideMetaA).sizeY = (resize wideMetaA).sizeX ∧
        (resize wideMetaA).sizeX = (resize wideMetaB).sizeX ∧
        (resize wideMetaA).sizeY = (resize wideMetaB).sizeY) :=
  ⟨rfl, resize_target_square_width_only wideMetaA wideMetaB rfl⟩

/-- C5: every cell of the resized grid outside the copied source
rectangle (row at least the source height, or column at least the source
width) holds zero. -/
theorem resize_padding_zero (meta : SourceImageMeta) (i : Nat)
    (_hi : i < (resize meta).sizeX * (resize meta).sizeY)
    (hpad : meta.height ≤ i / (resize meta).sizeX ∨
      meta.width ≤ i % (resize meta).sizeX) :
    (resize meta).data.getD i 0 = 0 := by
  have hsz : (resize meta).sizeX = roundUpToPowerOfTwo meta.width := rfl
  rw [hsz] at hpad
  rw [resize_data, copyAll_getD_miss, getD_replicate_zero]
  intro y hy x hx heq
  set t := roundUpToPowerOfTwo meta.width with ht
  have h0t : 0 < t := roundUpToPowerOfTwo_pos _
  have hxt : x < t := lt_of_lt_of_le hx (le_roundUpToPowerOfTwo _)
  have hdiv : (y * t + x) / t = y := by
    rw [add_comm, mul_comm, Nat.add_mul_div_left x y h0t, Nat.div_eq_of_lt hxt, zero_add]
  have hmod : (y * t + x) % t = x := by
    rw [add_comm, mul_comm, Nat.add_mul_mod_self_left, Nat.mod_eq_of_lt hxt]
  rcases hpad with hh | hw
  · rw [← heq, hdiv] at hh; omega
  · rw [← heq, hmod] at hw; omega

theorem resize_padding_zero_witness :
    (3 < (resize padMeta).sizeX * (resize padMeta).sizeY ∧
      (padMeta.height ≤ 3 / (resize padMeta).sizeX ∨
        padMeta.width ≤ 3 % (resize padMeta).sizeX)) ∧
      (resize padMeta).data.getD 3 0 = 0 :=
  ⟨⟨by decide, by decide⟩, resize_padding_zero padMeta 3 (by decide) (by decide)⟩

/-- C3: on a square power-of-two input with a full sample buffer, resize
returns the input unchanged: same dimensions, identical samples. -/
theorem resize_pow2_square_identity (meta : SourceImageMeta) (k : Nat)
    (hw : meta.width = 2 ^ k) (hh : meta.height = meta.width)
    (hs : meta.samples.length = meta.width * meta.height) :
    (resize meta).sizeX = meta.width ∧ (resize meta).sizeY = meta.height ∧
      (resize meta).data = meta.samples := by
  have ht : roundUpToPowerOfTwo meta.width = meta.width := by
    rw [hw, roundUpToPowerOfTwo_pow]
  have hw0 : 0 < meta.width := by
    rw [hw]; exact Nat.pos_pow_of_pos _ (by omega)
  refine ⟨ht, by rw [hh]; exact ht, ?_⟩
  apply List.ext_getElem
  · rw [resize_data_length, ht, hs, hh]
  · intro i h1 h2
    have hlen : i < meta.width * meta.width := by
      rw [hs, hh] at h2; exact h2
    have hy : i / meta.width < meta.width := (Nat.div_lt_iff_lt_mul hw0).mpr hlen
    have hx : i % meta.width < meta.width := Nat.mod_lt _ hw0
    have hi : i / meta.width * meta.width + i % meta.width = i := by
      rw [mul_comm]; exact Nat.div_add_mod i meta.width
    have e1 : (resize meta).data[i] = (resize meta).data.getD i 0 := by
      rw [List.getD_eq_getElem?_getD, List.getElem?_eq_getElem h1]; rfl
    have e2 : meta.samples[i] = meta.samples.getD i 0 := by
      rw [List.getD_eq_getElem?_getD, List.getElem?_eq_getElem h2]; rfl
    have hit := copyAll_getD_hit meta.samples meta.width meta.width meta.height
      (i / meta.width) (i % meta.width)
      (List.replicate (meta.width * meta.width) 0) (le_refl _)
      (by rw [hh]; exact hy) hx
      (by rw [List.length_replicate, hi]; exact hlen)
    rw [e1, e2, resize_data]
    calc (copyAll meta.samples meta.width (roundUpToPowerOfTwo meta.width) meta.height
          (List.replicate (roundUpToPowerOfTwo meta.width * roundUpToPowerOfTwo meta.width) 0)).getD i 0
        = (copyAll meta.samples meta.width meta.width meta.height
            (List.replicate (meta.width * meta.width) 0)).getD
            (i / meta.width * meta.width + i % meta.width) 0 := by rw [ht, hi]
      _ = meta.samples.getD (i / meta.width * meta.width + i % meta.width) 0 := hit
      _ = meta.samples.getD i 0 := by rw [hi]

theorem resize_pow2_square_identity_witness :
    (sqMeta.width = 2 ^ 1 ∧ sqMeta.height = sqMeta.width ∧
      sqMeta.samples.length = sqMeta.width * sqMeta.height) ∧
      ((resize sqMeta).sizeX = sqMeta.width ∧ (resize sqMeta).sizeY = sqMeta.height ∧
        (resize sqMeta).data = sqMeta.samples) :=
  ⟨⟨rfl, rfl, rfl⟩, resize_pow2_square_identity sqMeta 1 rfl rfl rfl⟩

/-- C1: the claim that every write of the copy loop lands inside the
allocated targetSize^2 buffer fails: for a 1x2 image the loop writes
index 1 of a 1-sample buffer, because the code never guards the row
index `y` by `y < targetSize`. -/
theorem resize_copy_write_out_of_bounds :
    ¬ resizeWritesInBounds tallMeta ∧
      roundUpToPowerOfTwo tallMeta.width * roundUpToPowerOfTwo tallMeta.width = 1 ∧
      1 * roundUpToPowerOfTwo tallMeta.width + 0 = 1 ∧
      1 < tallMeta.height ∧ 0 < tallMeta.width := by
  decide

/-! ### Terrain parameters, scales and the pipeline -/

/-- C6: componentQuads is max(63, gridSize-1) for every gridSize at
least 1 (63 at gridSize 1, 127 at 128), subsectionQuads equals it, and
numSubsections is fixed at 1. -/
theorem deriveParams_spec (gridSize : Nat) (_hg : 1 ≤ gridSize) :
    (deriveParams gridSize).componentQuads = max 63 (gridSize - 1) ∧
      (deriveParams gridSize).subsectionQuads = (deriveParams gridSize).componentQuads ∧
      (deriveParams gridSize).numSubsections = 1 ∧
      (deriveParams 1).componentQuads = 63 ∧
      (deriveParams 128).componentQuads = 127 :=
  ⟨rfl, rfl, rfl, by decide, by decide⟩

theorem deriveParams_spec_witness :
    1 ≤ 64 ∧
      ((deriveParams 64).componentQuads = max 63 (64 - 1) ∧
        (deriveParams 64).subsectionQuads = (deriveParams 64).componentQuads ∧
        (deriveParams 64).numSubsections = 1 ∧
        (deriveParams 1).componentQuads = 63 ∧
        (deriveParams 128).componentQuads = 127) :=
  ⟨by decide, deriveParams_spec 64 (by decide)⟩

/-- C7: the horizontal scale times the grid size equals the block world
size times the nearest-integer rounding of the square root of numBlocks;
in this exact rational model of the float arithmetic the identity is
exact, hence within any floating-point tolerance. -/
theorem computeScales_horizontal_exact (gridSize numBlocks : Nat)
    (hg : 0 < gridSize) (_hn : 0 < numBlocks)
    (blockWorldSize desiredVerticalScale : ℚ) :
    (computeScales gridSize numBlocks blockWorldSize desiredVerticalScale).horizontal *
        (gridSize : ℚ) =
      blockWorldSize * (roundSqrt numBlocks : ℚ) := by
  have hgz : (gridSize : ℚ) ≠ 0 := Nat.cast_ne_zero.mpr (by omega)
  show blockWorldSize * (roundSqrt numBlocks : ℚ) / (gridSize : ℚ) * (gridSize : ℚ) =
    blockWorldSize * (roundSqrt numBlocks : ℚ)
  rw [div_mul_cancel₀ _ hgz]

theorem computeScales_horizontal_exact_witness :
    (0 < 512 ∧ 0 < 4) ∧
      (computeScales 512 4 blockSizeInUnrealUnits desiredScale).horizontal * ((512 : Nat) : ℚ) =
        blockSizeInUnrealUnits * (roundSqrt 4 : ℚ) :=
  ⟨⟨by decide, by decide⟩,
    computeScales_horizontal_exact 512 4 (by decide) (by decide)
      blockSizeInUnrealUnits desiredScale⟩

/-- C8: when no host world is provided the pipeline aborts immediately:
the result is the host-unavailable error and no stage at all executes,
so nothing is read, decoded or computed. -/
theorem host_unavailable_aborts (inp : PipelineInput) (numBlocks : Nat)
    (h : inp.hostAvailable = false) :
    generateLandscape inp numBlocks = ([], Except.error PipelineError.hostUnavailable) := by
  unfold generateLandscape
  rw [h]
  rfl

theorem host_unavailable_aborts_witness :
    noHostInput.hostAvailable = false ∧
      generateLandscape noHostInput 1 = ([], Except.error PipelineError.hostUnavailable) :=
  ⟨rfl, host_unavailable_aborts noHostInput 1 rfl⟩

/-- C9: on any decode-chain failure (unreadable file, undecodable
container, or failing raw 16-bit extraction) the pipeline stops with a
single error: the resize, parameter derivation, scale computation and
builder stages never execute. -/
theorem decode_failure_fails_fast (inp : PipelineInput) (numBlocks : Nat)
    (hhost : inp.hostAvailable = true)
    (hfail : inp.fileBytes = none ∨ inp.decodedImage = none ∨ inp.rawDataOk = false) :
    (∃ e, (generateLandscape inp numBlocks).2 = Except.error e) ∧
      Stage.doResize ∉ (generateLandscape inp numBlocks).1 ∧
      Stage.deriveTerrainParams ∉ (generateLandscape inp numBlocks).1 ∧
      Stage.computeScaleFactors ∉ (generateLandscape inp numBlocks).1 ∧
      Stage.build ∉ (generateLandscape inp numBlocks).1 := by
  have hne : ¬ (inp.hostAvailable = false) := by rw [hhost]; decide
  have hres : generateLandscape inp numBlocks =
        ([Stage.fileRead], Except.error PipelineError.fileReadError) ∨
      generateLandscape inp numBlocks =
        ([Stage.fileRead, Stage.decode], Except.error PipelineError.formatError) ∨
      generateLandscape inp numBlocks =
        ([Stage.fileRead, Stage.decode, Stage.getRaw],
          Except.error PipelineError.pixelFormatError) := by
    rcases hfail with hb | hd | hr
    · refine Or.inl ?_
      unfold generateLandscape
      rw [if_neg hne, hb]
    · cases hbs : inp.fileBytes with
      | none =>
        refine Or.inl ?_
        unfold generateLandscape
        rw [if_neg hne, hbs]
      | some b =>
        refine Or.inr (Or.inl ?_)
        unfold generateLandscape
        rw [if_neg hne, hbs, hd]
    · cases hbs : inp.fileBytes with
      | none =>
        refine Or.inl ?_
        unfold generateLandscape
        rw [if_neg hne, hbs]
      | some b =>
        cases hdi : inp.decodedImage with
        | none =>
          refine Or.inr (Or.inl ?_)
          unfold generateLandscape
          rw [if_neg hne, hbs, hdi]
        | some meta =>
          refine Or.inr (Or.inr ?_)
          unfold generateLandscape
          rw [if_neg hne, hbs, hdi, hr]
          rfl
  rcases hres with hres | hres | hres <;> rw [hres] <;>
    exact ⟨⟨_, rfl⟩, by decide, by decide, by decide, by decide⟩

theorem decode_failure_fails_fast_witness :
    (badFileInput.hostAvailable = true ∧
      (badFileInput.fileBytes = none ∨ badFileInput.decodedImage = none ∨
        badFileInput.rawDataOk = false)) ∧
      ((∃ e, (generateLandscape badFileInput 4).2 = Except.error e) ∧
        Stage.doResize ∉ (generateLandscape badFileInput 4).1 ∧
        Stage.deriveTerrainParams ∉ (generateLandscape badFileInput 4).1 ∧
        Stage.computeScaleFactors ∉ (generateLandscape badFileInput 4).1 ∧
        Stage.build ∉ (generateLandscape badFileInput 4).1) :=
  ⟨⟨rfl, Or.inl rfl⟩, decode_failure_fails_fast badFileInput 4 rfl (Or.inl rfl)⟩

/-- C10: the core computation is deterministic: identical inputs and
block counts give identical grids, parameters and scales; the vertical
scale is always the constant 25 and the per-block world size is the
constant 50000. -/
theorem generateLandscape_deterministic (inp₁ inp₂ : PipelineInput) (n₁ n₂ : Nat)
    (hi : inp₁ = inp₂) (hn : n₁ = n₂) :
    generateLandscape inp₁ n₁ = generateLandscape inp₂ n₂ ∧
      (∀ cfg, (generateLandscape inp₁ n₁).2 = Except.ok cfg → cfg.verticalScale = 25) ∧
      blockSizeInUnrealUnits = 50000 := by
  subst hi
  subst hn
  refine ⟨rfl, ?_, rfl⟩
  intro cfg hcfg
  unfold generateLandscape at hcfg
  split at hcfg
  · exact Except.noConfusion hcfg
  · split at hcfg
    · exact Except.noConfusion hcfg
    · split at hcfg
      · exact Except.noConfusion hcfg
      · split at hcfg
        · exact Except.noConfusion hcfg
        · injection hcfg with hc
          subst hc
          rfl

theorem generateLandscape_deterministic_witness :
    (okInput = okInput ∧ (4 : Nat) = 4) ∧
      (generateLandscape okInput 4 = generateLandscape okInput 4 ∧
        (∀ cfg, (generateLandscape okInput 4).2 = Except.ok cfg → cfg.verticalScale = 25) ∧
        blockSizeInUnrealUnits = 50000) :=
  ⟨⟨rfl, rfl⟩, generateLandscape_deterministic okInput okInput 4 4 rfl rfl⟩

end Landscape
